import Mathlib

/-!
Verification of the DSPU-HA controller leader-election core.

Shallow embedding of src/controller/src/controller/leader.py and
src/controller/src/controller/app.py:

- the shared metadata table dspu_meta (k TEXT PRIMARY KEY, v TEXT NOT NULL)
  is an association list with unique keys, wrapped in Db together with a
  flag for whether the table exists at all;
- psycopg statements that can raise are functions into Except PgErr;
- the election loop body (LeaderElector.run, one poll tick) is the function
  tick, parameterised by a FaultPlan that says which connection-level
  statements fail on this tick, mirroring where exceptions can be thrown;
- the schema-init retry loop models time.time() advancing by exactly one
  retry interval per failed attempt (the sleep between attempts), with a
  fuel parameter standing for the unbounded while loop.
-/

namespace DSPU

/-! ## Metadata table (dspu_meta) -/

/-- One Postgres table of rows (k, v), keys unique. -/
abbrev MetaTable := List (String × String)

/-- SELECT v FROM dspu_meta WHERE k = key. -/
def selectV : MetaTable → String → Option String
  | [], _ => none
  | (k2, v) :: rest, k => if k2 = k then some v else selectV rest k

/-- INSERT ... ON CONFLICT (k) DO UPDATE SET v = EXCLUDED.v. -/
def upsert : MetaTable → String → String → MetaTable
  | [], k, v => [(k, v)]
  | (k2, v2) :: rest, k, v =>
      if k2 = k then (k2, v) :: rest else (k2, v2) :: upsert rest k v

/-- The backing store: meta = none models the dspu_meta table not existing. -/
structure Db where
  meta : Option MetaTable
deriving DecidableEq

/-- Exceptions psycopg statements can raise in this model. -/
inductive PgErr
  | connLost
  | undefinedTable
  | valueError
deriving DecidableEq

/-- Reads a run of decimal digits, accumulating the value; none when a
non-digit character is met or when no digit was seen at all. -/
def decDigits : List Char → Option Nat → Option Nat
  | [], acc => acc
  | c :: cs, acc =>
      if '0' ≤ c ∧ c ≤ '9' then
        decDigits cs (some ((acc.getD 0) * 10 + (c.toNat - 48)))
      else none

/-- Python int() on decimal text: optional leading minus sign, then decimal
digits; anything else raises ValueError (modelled as none). -/
def pyIntOfString (s : String) : Option Int :=
  match s.data with
  | '-' :: rest => (decDigits rest none).map (fun n => -(n : Int))
  | l => (decDigits l none).map (fun n => (n : Int))

/-- Python int(s) on the TEXT column value: ValueError when not an integer
literal. -/
def pyInt (s : String) : Except PgErr Int :=
  match pyIntOfString s with
  | some n => Except.ok n
  | none => Except.error PgErr.valueError

/-- A SELECT against dspu_meta: raises UndefinedTable when the table does not
exist, otherwise fetchone() gives the row or None. -/
def selectRow (db : Db) (k : String) : Except PgErr (Option String) :=
  match db.meta with
  | none => Except.error PgErr.undefinedTable
  | some t => Except.ok (selectV t k)

/-! ## Schema initialiser (LeaderElector.ensure_schema_once) -/

/-- One successful run of the schema transaction: take SCHEMA_LOCK, CREATE
TABLE IF NOT EXISTS dspu_meta, read leader_epoch, INSERT the row with value
0 when absent, commit. The advisory lock serialises runs, so the model is
the sequential function. -/
def ensure_schema_once (db : Db) : Db :=
  let t := db.meta.getD []
  match selectV t "leader_epoch" with
  | none => ⟨some (t ++ [("leader_epoch", "0")])⟩
  | some _ => ⟨some t⟩

lemma selectV_append_of_none (t : MetaTable) (k v : String)
    (h : selectV t k = none) : selectV (t ++ [(k, v)]) k = some v := by
  induction t with
  | nil => simp [selectV]
  | cons p rest ih =>
    obtain ⟨k2, v2⟩ := p
    by_cases hk : k2 = k
    · simp [selectV, hk] at h
    · simp only [selectV, hk, if_false, List.cons_append] at h ⊢
      simp [selectV, hk]
      exact ih h

/-- Claim C6: schema initialisation is idempotent. One run ensures the
metadata table exists and that the leader_epoch row is present with value 0
when it was absent; a further run against a state already produced by a run
leaves the table unchanged, and an existing leader_epoch value is never
overwritten. -/
theorem C6_schema_idempotent (db : Db) :
    (ensure_schema_once db).meta.isSome = true
    ∧ (selectV (db.meta.getD []) "leader_epoch" = none →
        selectRow (ensure_schema_once db) "leader_epoch" = Except.ok (some "0"))
    ∧ (∀ v, selectV (db.meta.getD []) "leader_epoch" = some v →
        selectRow (ensure_schema_once db) "leader_epoch" = Except.ok (some v))
    ∧ ensure_schema_once (ensure_schema_once db) = ensure_schema_once db := by
  refine ⟨?_, ?_, ?_, ?_⟩
  · unfold ensure_schema_once
    cases h : selectV (db.meta.getD []) "leader_epoch" <;> simp [h]
  · intro h
    unfold ensure_schema_once
    simp only [h]
    unfold selectRow
    simp [selectV_append_of_none _ _ _ h]
  · intro v h
    unfold ensure_schema_once
    simp only [h]
    unfold selectRow
    simp [h]
  · unfold ensure_schema_once
    cases h : selectV (db.meta.getD []) "leader_epoch" with
    | none =>
      simp only [h, Option.getD_some]
      simp [selectV_append_of_none _ _ _ h]
    | some v =>
      simp [h]

theorem C6_schema_idempotent_witness :
    selectRow (ensure_schema_once ⟨none⟩) "leader_epoch" = Except.ok (some "0")
    ∧ selectRow (ensure_schema_once ⟨some [("leader_epoch", "7")]⟩)
        "leader_epoch" = Except.ok (some "7") :=
  ⟨(C6_schema_idempotent ⟨none⟩).2.1 rfl,
   (C6_schema_idempotent ⟨some [("leader_epoch", "7")]⟩).2.2.1 "7" rfl⟩

/-! ## RoleState (leader.py LeaderState) and the HTTP leader gate (app.py) -/

/-- The in-process snapshot published by the election loop
(dataclass LeaderState in leader.py). -/
structure LeaderState where
  node_id : String
  role : String
  leader_epoch : Option Int
  leader_id : Option String
deriving DecidableEq

/-- The snapshot built in LeaderElector.init before the loop starts. -/
def initState (nodeId : String) : LeaderState :=
  ⟨nodeId, "STANDBY", none, none⟩

/-- LeaderElector.set_state: the snapshot is replaced whole; node_id always
comes from the elector configuration. -/
def set_state (nodeId role : String) (epoch : Option Int)
    (lid : Option String) : LeaderState :=
  ⟨nodeId, role, epoch, lid⟩

/-- The JSON body built by app.not_leader_payload. -/
structure NotLeaderPayload where
  error : String
  leader_id : Option String
  leader_url : Option String
  leader_epoch : Option Int
  node_id : String
  role : String
deriving DecidableEq

def not_leader_payload (s : LeaderState) (leaderUrl : Option String) :
    NotLeaderPayload :=
  ⟨"NOT_LEADER", s.leader_id, leaderUrl, s.leader_epoch, s.node_id, s.role⟩

/-- Python str() applied to an int-or-None value, as in
str(s.leader_epoch): the decimal digits for an int, the literal None text
otherwise. -/
def pyStr : Option Int → String
  | none => "None"
  | some n => toString n

/-- A 409 response as constructed in app.ensure_leader_or_409: the JSON
payload plus the two fencing headers. idHeader = none models Python None
being passed as the header value (no string at all). -/
structure Http409 where
  payload : NotLeaderPayload
  epochHeader : String
  idHeader : Option String
deriving DecidableEq

/-- app.ensure_leader_or_409: some response when the gate rejects, none when
the caller may proceed. -/
def ensure_leader_or_409 (s : LeaderState) (leaderUrl : Option String) :
    Option Http409 :=
  if s.role ≠ "LEADER" then
    some ⟨not_leader_payload s leaderUrl, pyStr s.leader_epoch, s.leader_id⟩
  else
    none

/-- The response of POST /v1/leases. -/
inductive LeasesResponse
  | noContent
  | conflict (r : Http409)
deriving DecidableEq

/-- app.leases: the POST /v1/leases handler at dispatch time, reading the
current RoleState snapshot. -/
def leases (s : LeaderState) (leaderUrl : Option String) : LeasesResponse :=
  match ensure_leader_or_409 s leaderUrl with
  | some r => LeasesResponse.conflict r
  | none => LeasesResponse.noContent

/-! ## Election loop (LeaderElector.run), one poll tick -/

/-- The bump transaction of the election loop (leader.py lines 111 to 125):
inside one transaction, SELECT leader_epoch (absent row read as 0, text
parsed with int()), upsert leader_epoch to old + 1, upsert leader_id to this
node. On any error the transaction rolls back and the store is unchanged.
The source writes no updated_ms key anywhere. -/
def bumpTransaction (nodeId : String) (db : Db) : Except PgErr (Db × Int) :=
  match db.meta with
  | none => Except.error PgErr.undefinedTable
  | some t =>
    let oldE : Except PgErr Int :=
      match selectV t "leader_epoch" with
      | some s => pyInt s
      | none => Except.ok 0
    match oldE with
    | Except.error e => Except.error e
    | Except.ok old =>
      let newEpoch := old + 1
      let t1 := upsert t "leader_epoch" (toString newEpoch)
      let t2 := upsert t1 "leader_id" nodeId
      Except.ok (⟨some t2⟩, newEpoch)

/-- The best-effort standby read (leader.py lines 131 to 139): SELECT
leader_epoch (absent as 0) then SELECT leader_id (absent as None). Any
raised statement makes the whole read fail; the caller catches it. -/
def standbyRead (db : Db) : Except PgErr (Int × Option String) :=
  match db.meta with
  | none => Except.error PgErr.undefinedTable
  | some t =>
    let epochE : Except PgErr Int :=
      match selectV t "leader_epoch" with
      | some s => pyInt s
      | none => Except.ok 0
    match epochE with
    | Except.error e => Except.error e
    | Except.ok epoch => Except.ok (epoch, selectV t "leader_id")

/-- Which connection-level statements raise during this tick. A false field
means the corresponding statement (or statement group) throws a connection
error when reached. -/
structure FaultPlan where
  lockStmtOk : Bool
  bumpConnOk : Bool
  readConnOk : Bool
deriving DecidableEq

/-- Outcome of one loop tick. published is a normal tick ending in
set_state; raised is an exception escaping the while body: the thread
unwinds into the finally block and terminates, publishing nothing. -/
inductive TickOutcome
  | published (st : LeaderState) (db : Db) (haveLock : Bool)
      (myEpoch : Option Int)
  | raised (e : PgErr) (db : Db)
deriving DecidableEq

/-- One iteration of the while body of LeaderElector.run (leader.py lines
103 to 147). got is the Boolean fetched by pg_try_advisory_lock when that
statement succeeds; haveLock and myEpoch are the loop variables. -/
def tick (nodeId : String) (fp : FaultPlan) (got : Bool) (db : Db)
    (haveLock : Bool) (myEpoch : Option Int) : TickOutcome :=
  if haveLock then
    TickOutcome.published (set_state nodeId "LEADER" myEpoch (some nodeId))
      db true myEpoch
  else if fp.lockStmtOk = false then
    TickOutcome.raised PgErr.connLost db
  else if got then
    if fp.bumpConnOk = false then
      TickOutcome.raised PgErr.connLost db
    else
      match bumpTransaction nodeId db with
      | Except.error e => TickOutcome.raised e db
      | Except.ok (db2, newEpoch) =>
          TickOutcome.published
            (set_state nodeId "LEADER" (some newEpoch) (some nodeId))
            db2 true (some newEpoch)
  else
    let p : Int × Option String :=
      if fp.readConnOk = false then (0, none)
      else
        match standbyRead db with
        | Except.error _ => (0, none)
        | Except.ok pr => pr
    TickOutcome.published (set_state nodeId "STANDBY" (some p.1) p.2)
      db false myEpoch

/-- Claim C4: POST /v1/leases returns 204 iff the RoleState role is LEADER
at dispatch time; otherwise it returns 409 whose JSON body has error
NOT_LEADER and carries leader_id, leader_url, leader_epoch, node_id and
role. -/
theorem C4_leases_gate (s : LeaderState) (url : Option String) :
    (leases s url = LeasesResponse.noContent ↔ s.role = "LEADER")
    ∧ (s.role ≠ "LEADER" →
        leases s url = LeasesResponse.conflict
          ⟨⟨"NOT_LEADER", s.leader_id, url, s.leader_epoch, s.node_id, s.role⟩,
            pyStr s.leader_epoch, s.leader_id⟩) := by
  constructor
  · unfold leases ensure_leader_or_409
    by_cases h : s.role = "LEADER" <;> simp [h]
  · intro h
    unfold leases ensure_leader_or_409 not_leader_payload
    simp [h]

theorem C4_leases_gate_witness :
    leases ⟨"node-b", "STANDBY", some 1, some "node-a"⟩ (some "http://a")
      = LeasesResponse.conflict
          ⟨⟨"NOT_LEADER", some "node-a", some "http://a", some 1, "node-b",
            "STANDBY"⟩, "1", some "node-a"⟩ :=
  (C4_leases_gate ⟨"node-b", "STANDBY", some 1, some "node-a"⟩
    (some "http://a")).2 (by decide)

/-- Claim C5 counterexample: a standby that has not learnt an epoch or a
leader yet answers 409 whose x-dspu-leader-epoch header is the literal text
None — not the current epoch written as decimal digits — and whose
x-dspu-leader-id header value is Python None, not an identity string. -/
theorem C5_counterexample :
    leases ⟨"node-b", "STANDBY", none, none⟩ none
      = LeasesResponse.conflict
          ⟨⟨"NOT_LEADER", none, none, none, "node-b", "STANDBY"⟩, "None", none⟩
    ∧ pyIntOfString "None" = none :=
  ⟨rfl, by decide⟩

/-- Claim C5 amended: every 409 carries x-dspu-leader-epoch equal to
str(leader_epoch) — the decimal digits of the epoch when one is known, the
literal text None when absent — and x-dspu-leader-id equal to the raw
leader_id field — the identity string when known, Python None (no string)
when absent. -/
theorem C5_amended (s : LeaderState) (url : Option String)
    (h : s.role ≠ "LEADER") :
    ∃ r, leases s url = LeasesResponse.conflict r
      ∧ r.epochHeader = pyStr s.leader_epoch
      ∧ r.idHeader = s.leader_id
      ∧ (∀ e : Int, s.leader_epoch = some e → r.epochHeader = toString e)
      ∧ (s.leader_epoch = none → r.epochHeader = "None") := by
  refine ⟨⟨not_leader_payload s url, pyStr s.leader_epoch, s.leader_id⟩,
    ?_, rfl, rfl, ?_, ?_⟩
  · unfold leases ensure_leader_or_409
    simp [h]
  · intro e he
    simp [pyStr, he]
  · intro he
    simp [pyStr, he]

theorem C5_amended_witness :
    ∃ r, leases ⟨"node-b", "STANDBY", some 3, some "node-a"⟩ none
        = LeasesResponse.conflict r
      ∧ r.epochHeader = pyStr (some 3)
      ∧ r.idHeader = some "node-a"
      ∧ (∀ e : Int, (some 3 : Option Int) = some e → r.epochHeader = toString e)
      ∧ ((some 3 : Option Int) = none → r.epochHeader = "None") :=
  C5_amended ⟨"node-b", "STANDBY", some 3, some "node-a"⟩ none (by decide)

lemma selectV_upsert_ne (t : MetaTable) (k v k2 : String) (h : k2 ≠ k) :
    selectV (upsert t k v) k2 = selectV t k2 := by
  induction t with
  | nil => simp [upsert, selectV, Ne.symm h]
  | cons p rest ih =>
    obtain ⟨k3, v3⟩ := p
    by_cases h3 : k3 = k
    · subst h3
      simp [upsert, selectV, Ne.symm h]
    · by_cases h32 : k3 = k2
      · simp [upsert, selectV, h3, h32, h]
      · simp [upsert, selectV, h3, h32, ih]

lemma selectV_upsert_self (t : MetaTable) (k v : String) :
    selectV (upsert t k v) k = some v := by
  induction t with
  | nil => simp [upsert, selectV]
  | cons p rest ih =>
    obtain ⟨k2, v2⟩ := p
    by_cases h2 : k2 = k
    · subst h2
      simp [upsert, selectV]
    · simp [upsert, selectV, h2, ih]

/-- Claim C1 counterexample: winning the lock over a freshly seeded store
commits leader_epoch and leader_id but leaves no updated_ms row at all: the
bump transaction of the source never writes a wall-clock stamp. -/
theorem C1_counterexample :
    bumpTransaction "node-a" ⟨some [("leader_epoch", "0")]⟩
      = Except.ok (⟨some [("leader_epoch", "1"), ("leader_id", "node-a")]⟩, 1)
    ∧ selectV [("leader_epoch", "1"), ("leader_id", "node-a")] "updated_ms"
        = none :=
  ⟨rfl, rfl⟩

/-- Claim C1 amended: every transition from STANDBY to LEADER commits
leader_epoch and leader_id together in the one bump transaction, but no
updated_ms is written — the transaction leaves any updated_ms row exactly
as it was. -/
theorem C1_amended (nodeId : String) (t : MetaTable) (db2 : Db)
    (newEpoch : Int)
    (h : bumpTransaction nodeId ⟨some t⟩ = Except.ok (db2, newEpoch)) :
    db2 = ⟨some (upsert (upsert t "leader_epoch" (toString newEpoch))
            "leader_id" nodeId)⟩
    ∧ selectV (upsert (upsert t "leader_epoch" (toString newEpoch))
        "leader_id" nodeId) "leader_epoch" = some (toString newEpoch)
    ∧ selectV (upsert (upsert t "leader_epoch" (toString newEpoch))
        "leader_id" nodeId) "leader_id" = some nodeId
    ∧ selectV (upsert (upsert t "leader_epoch" (toString newEpoch))
        "leader_id" nodeId) "updated_ms" = selectV t "updated_ms" := by
  refine ⟨?_,
    by rw [selectV_upsert_ne _ _ _ _ (by decide), selectV_upsert_self],
    by rw [selectV_upsert_self],
    by rw [selectV_upsert_ne _ _ _ _ (by decide),
           selectV_upsert_ne _ _ _ _ (by decide)]⟩
  rcases hsel : selectV t "leader_epoch" with _ | s
  · simp only [bumpTransaction, hsel, Except.ok.injEq, Prod.mk.injEq] at h
    obtain ⟨hdb, hep⟩ := h
    subst hep
    exact hdb.symm
  · rcases hpy : pyInt s with e | old
    · simp only [bumpTransaction, hsel, hpy] at h
      simp at h
    · simp only [bumpTransaction, hsel, hpy, Except.ok.injEq,
        Prod.mk.injEq] at h
      obtain ⟨hdb, hep⟩ := h
      subst hep
      exact hdb.symm

theorem C1_amended_witness :
    (⟨some [("leader_epoch", "1"), ("leader_id", "node-a")]⟩ : Db)
      = ⟨some (upsert (upsert [("leader_epoch", "0")] "leader_epoch"
          (toString (1 : Int))) "leader_id" "node-a")⟩
    ∧ selectV (upsert (upsert [("leader_epoch", "0")] "leader_epoch"
        (toString (1 : Int))) "leader_id" "node-a") "leader_epoch"
        = some (toString (1 : Int))
    ∧ selectV (upsert (upsert [("leader_epoch", "0")] "leader_epoch"
        (toString (1 : Int))) "leader_id" "node-a") "leader_id"
        = some "node-a"
    ∧ selectV (upsert (upsert [("leader_epoch", "0")] "leader_epoch"
        (toString (1 : Int))) "leader_id" "node-a") "updated_ms"
        = selectV [("leader_epoch", "0")] "updated_ms" :=
  C1_amended "node-a" [("leader_epoch", "0")]
    ⟨some [("leader_epoch", "1"), ("leader_id", "node-a")]⟩ 1 rfl

/-- Claim C2 counterexample: a connection error in the lock-acquisition
statement of a tick is not recovered: the tick ends in a raised exception
that escapes the while body, so the background thread terminates instead of
dropping to STANDBY and reconnecting. -/
theorem C2_counterexample :
    tick "node-a" ⟨false, true, true⟩ false ⟨some []⟩ false none =
      TickOutcome.raised PgErr.connLost ⟨some []⟩ :=
  rfl

/-- Claim C2 amended: only a failure of the best-effort standby read is
recovered locally (the tick publishes STANDBY with epoch 0 and no leader
id); a backing-store error in the lock-acquisition statement or in the bump
transaction propagates out of the loop and terminates the background
thread, publishing nothing — so HTTP clients still never see loop errors
directly, only the last published RoleState. -/
theorem C2_amended (nodeId : String) (fp : FaultPlan) (db : Db)
    (me : Option Int) :
    (fp.lockStmtOk = true → fp.readConnOk = false →
      tick nodeId fp false db false me =
        TickOutcome.published (set_state nodeId "STANDBY" (some 0) none)
          db false me)
    ∧ (fp.lockStmtOk = false →
        tick nodeId fp false db false me =
          TickOutcome.raised PgErr.connLost db)
    ∧ (fp.lockStmtOk = true → fp.bumpConnOk = false →
        tick nodeId fp true db false me =
          TickOutcome.raised PgErr.connLost db) := by
  refine ⟨?_, ?_, ?_⟩
  · intro h1 h2
    simp [tick, h1, h2]
  · intro h1
    simp [tick, h1]
  · intro h1 h2
    simp [tick, h1, h2]

theorem C2_amended_witness :
    tick "node-b" ⟨true, false, true⟩ true ⟨some []⟩ false none =
      TickOutcome.raised PgErr.connLost ⟨some []⟩ :=
  (C2_amended "node-b" ⟨true, false, true⟩ ⟨some []⟩ none).2.2 rfl rfl

/-- Claim C3: on a successful acquisition of LEADER_LOCK, the tick reads
leader_epoch (an absent row read as 0), upserts exactly old + 1 in the same
transaction that records this node as leader_id, and publishes RoleState
LEADER carrying the new epoch. -/
theorem C3_bump_and_publish (nodeId : String) (t : MetaTable) (old : Int)
    (fp : FaultPlan) (me : Option Int)
    (hlock : fp.lockStmtOk = true) (hbump : fp.bumpConnOk = true)
    (hold : (selectV t "leader_epoch" = none ∧ old = 0)
      ∨ (∃ s, selectV t "leader_epoch" = some s ∧ pyInt s = Except.ok old)) :
    tick nodeId fp true ⟨some t⟩ false me =
      TickOutcome.published
        (set_state nodeId "LEADER" (some (old + 1)) (some nodeId))
        ⟨some (upsert (upsert t "leader_epoch" (toString (old + 1)))
          "leader_id" nodeId)⟩
        true (some (old + 1)) := by
  rcases hold with ⟨hsel, rfl⟩ | ⟨s, hsel, hpy⟩
  · simp [tick, hlock, hbump, bumpTransaction, hsel]
  · simp [tick, hlock, hbump, bumpTransaction, hsel, hpy]

theorem C3_bump_and_publish_witness :
    tick "node-a" ⟨true, true, true⟩ true ⟨some []⟩ false none =
      TickOutcome.published
        (set_state "node-a" "LEADER" (some 1) (some "node-a"))
        ⟨some [("leader_epoch", "1"), ("leader_id", "node-a")]⟩
        true (some 1) :=
  C3_bump_and_publish "node-a" [] 0 ⟨true, true, true⟩ none rfl rfl
    (Or.inl ⟨rfl, rfl⟩)

/-- Claim C8: on a tick where the lock is not acquired and the best-effort
read fails — at connection level, or because the statements themselves
raise — the loop publishes STANDBY with epoch 0 and no leader id, instead
of raising or keeping the previous snapshot. -/
theorem C8_standby_read_failure (nodeId : String) (fp : FaultPlan) (db : Db)
    (me : Option Int) (hlock : fp.lockStmtOk = true)
    (hfail : fp.readConnOk = false ∨ ∃ e, standbyRead db = Except.error e) :
    tick nodeId fp false db false me =
      TickOutcome.published (set_state nodeId "STANDBY" (some 0) none)
        db false me := by
  rcases hfail with hr | ⟨e, he⟩
  · simp [tick, hlock, hr]
  · cases hr2 : fp.readConnOk with
    | false => simp [tick, hlock, hr2]
    | true => simp [tick, hlock, hr2, he]

theorem C8_standby_read_failure_witness :
    tick "node-b" ⟨true, true, false⟩ false ⟨some []⟩ false none =
      TickOutcome.published (set_state "node-b" "STANDBY" (some 0) none)
        ⟨some []⟩ false none :=
  C8_standby_read_failure "node-b" ⟨true, true, false⟩ ⟨some []⟩ none rfl
    (Or.inl rfl)

/-- Every RoleState a process can observe: node_id equals the configured
identity and the role text is LEADER or STANDBY. -/
def RoleStateWF (cfgNode : String) (s : LeaderState) : Prop :=
  s.node_id = cfgNode ∧ (s.role = "LEADER" ∨ s.role = "STANDBY")

/-- Claim C10: before the loop starts the snapshot is STANDBY with epoch
and leader id absent; every snapshot is fully formed with node_id equal to
the configured NODE_ID and role either LEADER or STANDBY, and every
publication a tick makes preserves this. -/
theorem C10_rolestate_invariant (n : String) :
    initState n = ⟨n, "STANDBY", none, none⟩
    ∧ RoleStateWF n (initState n)
    ∧ (∀ fp got db hl me st db2 hl2 me2,
        tick n fp got db hl me = TickOutcome.published st db2 hl2 me2 →
        RoleStateWF n st) := by
  refine ⟨rfl, ⟨rfl, Or.inr rfl⟩, ?_⟩
  intro fp got db hl me st db2 hl2 me2 h
  unfold tick at h
  split at h
  · cases h
    exact ⟨rfl, Or.inl rfl⟩
  · split at h
    · simp at h
    · split at h
      · split at h
        · simp at h
        · split at h
          · simp at h
          · cases h
            exact ⟨rfl, Or.inl rfl⟩
      · cases h
        exact ⟨rfl, Or.inr rfl⟩

theorem C10_rolestate_invariant_witness :
    RoleStateWF "node-a" (set_state "node-a" "STANDBY" (some 0) none) :=
  (C10_rolestate_invariant "node-a").2.2 ⟨true, true, true⟩ false ⟨some []⟩
    false none (set_state "node-a" "STANDBY" (some 0) none) ⟨some []⟩ false
    none rfl

/-! ## Schema-init retry (LeaderElector.ensure_schema_with_retry, start)

The while loop compares time.time() against deadline = t0 + retryS. In the
model the clock advances by exactly one retry interval per failed attempt
(the sleep between attempts), so the check before attempt k compares
k * interval with retryS. outcomes k is the result of attempt k: none for
success, some e for a raised exception. fuel bounds the unbounded loop;
none means the fuel ran out before the loop finished. -/

/-- Result of the retry loop: ok when some attempt succeeded, timeout for
the RuntimeError raised after the deadline, carrying last_exc. -/
inductive RetryResult
  | ok (attempts : Nat)
  | timeout (attempts : Nat) (lastExc : Option PgErr)
deriving DecidableEq

def retryLoop (retryS interval : ℚ) (outcomes : Nat → Option PgErr) :
    Nat → Nat → Option PgErr → Option RetryResult
  | 0, _, _ => none
  | fuel + 1, k, lastExc =>
    if (k : ℚ) * interval < retryS then
      match outcomes k with
      | none => some (RetryResult.ok (k + 1))
      | some e => retryLoop retryS interval outcomes fuel (k + 1) (some e)
    else
      some (RetryResult.timeout k lastExc)

/-- LeaderElector.ensure_schema_with_retry. -/
def ensure_schema_with_retry (retryS interval : ℚ)
    (outcomes : Nat → Option PgErr) (fuel : Nat) : Option RetryResult :=
  retryLoop retryS interval outcomes fuel 0 none

/-- What LeaderElector.start does after the schema step: the election
thread is started only when ensure_schema_with_retry returned; a raised
RuntimeError (carrying last_exc) propagates and no thread starts. -/
structure StartResult where
  threadStarted : Bool
  raisedRuntimeError : Option (Option PgErr)
deriving DecidableEq

def start (retryS interval : ℚ) (outcomes : Nat → Option PgErr)
    (fuel : Nat) : Option StartResult :=
  match ensure_schema_with_retry retryS interval outcomes fuel with
  | none => none
  | some (RetryResult.ok _) => some ⟨true, none⟩
  | some (RetryResult.timeout _ le) => some ⟨false, some le⟩

lemma retryLoop_all_fail (retryS interval : ℚ) (errAt : Nat → PgErr)
    (N : Nat) (hN : ¬ ((N : ℚ) * interval < retryS))
    (hlt : ∀ m, m < N → (m : ℚ) * interval < retryS) :
    ∀ fuel k le, N < k + fuel → k ≤ N →
      retryLoop retryS interval (fun j => some (errAt j)) fuel k le =
        some (RetryResult.timeout N
          (if k = N then le else some (errAt (N - 1)))) := by
  intro fuel
  induction fuel with
  | zero =>
    intro k le hkf hkN
    omega
  | succ f ih =>
    intro k le hkf hkN
    by_cases hk : k = N
    · subst hk
      simp [retryLoop, hN]
    · have hklt : k < N := lt_of_le_of_ne hkN hk
      have hcond : (k : ℚ) * interval < retryS := hlt k hklt
      rw [retryLoop, if_pos hcond]
      have := ih (k + 1) (some (errAt k)) (by omega) (by omega)
      show retryLoop retryS interval (fun j => some (errAt j)) f (k + 1)
        (some (errAt k)) = _
      rw [this]
      by_cases hk1 : k + 1 = N
      · have hk2 : k = N - 1 := by omega
        simp [hk1, hk, hk2]
        rw [if_neg (show ¬ (N - 1 = N) by omega)]
      · simp [hk1, hk]

/-- Claim C7: when every schema-init attempt fails, the initialiser keeps
retrying (sleeping one interval between attempts) until the deadline
elapses, makes at least one attempt, then raises carrying the error of the
last attempt; start then does not start the election thread. N is the
attempt count determined by the deadline check: the least k with
k * interval not below retryS. -/
theorem C7_retry_until_deadline (retryS interval : ℚ) (errAt : Nat → PgErr)
    (N fuel : Nat) (hpos : 0 < retryS)
    (hN : ¬ ((N : ℚ) * interval < retryS))
    (hlt : ∀ m, m < N → (m : ℚ) * interval < retryS)
    (hfuel : N < fuel) :
    1 ≤ N
    ∧ ensure_schema_with_retry retryS interval (fun j => some (errAt j)) fuel
        = some (RetryResult.timeout N (some (errAt (N - 1))))
    ∧ start retryS interval (fun j => some (errAt j)) fuel
        = some ⟨false, some (some (errAt (N - 1)))⟩ := by
  have hN1 : 1 ≤ N := by
    rcases Nat.eq_zero_or_pos N with h0 | h1
    · subst h0
      simp at hN
      exact absurd (lt_of_lt_of_le hpos hN) (by norm_num)
    · exact h1
  have hmain := retryLoop_all_fail retryS interval errAt N hN hlt fuel 0 none
    (by omega) (by omega)
  have hne : (0 : Nat) ≠ N := by omega
  rw [if_neg hne] at hmain
  refine ⟨hN1, hmain, ?_⟩
  unfold start ensure_schema_with_retry
  rw [hmain]

theorem C7_retry_until_deadline_witness :
    ensure_schema_with_retry 1 (1 / 2) (fun _ => some PgErr.connLost) 3
      = some (RetryResult.timeout 2 (some PgErr.connLost))
    ∧ start 1 (1 / 2) (fun _ => some PgErr.connLost) 3
      = some ⟨false, some (some PgErr.connLost)⟩ :=
  ⟨(C7_retry_until_deadline 1 (1 / 2) (fun _ => PgErr.connLost) 2 3
      (by norm_num) (by norm_num)
      (by intro m hm; interval_cases m <;> norm_num) (by norm_num)).2.1,
   (C7_retry_until_deadline 1 (1 / 2) (fun _ => PgErr.connLost) 2 3
      (by norm_num) (by norm_num)
      (by intro m hm; interval_cases m <;> norm_num) (by norm_num)).2.2⟩

/-- Claim C9: with a zero or negative total budget the retry loop raises at
once: the deadline check fails before any attempt, no initialisation
attempt is made, the RuntimeError carries last_exc = None, and start does
not start the election thread. -/
theorem C9_nonpositive_budget (retryS interval : ℚ)
    (outcomes : Nat → Option PgErr) (fuel : Nat)
    (hle : retryS ≤ 0) (hfuel : 1 ≤ fuel) :
    ensure_schema_with_retry retryS interval outcomes fuel
      = some (RetryResult.timeout 0 none)
    ∧ start retryS interval outcomes fuel = some ⟨false, some none⟩ := by
  obtain ⟨f, rfl⟩ : ∃ f, fuel = f + 1 :=
    ⟨fuel - 1, by omega⟩
  have hcond : ¬ ((0 : ℚ) * interval < retryS) := by
    simp
    exact hle
  have hmain : ensure_schema_with_retry retryS interval outcomes (f + 1)
      = some (RetryResult.timeout 0 none) := by
    unfold ensure_schema_with_retry
    rw [retryLoop, if_neg (by push_cast; exact hcond)]
  refine ⟨hmain, ?_⟩
  unfold start
  rw [hmain]

theorem C9_nonpositive_budget_witness :
    ensure_schema_with_retry 0 (1 / 2) (fun _ => none) 1
      = some (RetryResult.timeout 0 none)
    ∧ start 0 (1 / 2) (fun _ => none) 1 = some ⟨false, some none⟩ :=
  C9_nonpositive_budget 0 (1 / 2) (fun _ => none) 1 (by norm_num)
    (by norm_num)

end DSPU
